import Mathlib

/-!
Shallow embedding of the dog_patrol repository (src/main.py, the Strava
webhook cloud function, and src/backfill_activities.py, the batch backfill
script), together with proofs of the specification claims.

Python strings are modelled as Lean `String`; Python `dict.get` results as
`Option`; machine integers do not overflow in this program so counters are
`Nat` and parsed header numbers are `Int`.  Stateful code (statistics
counters, Firestore writes, HTTP writes) is modelled by explicit state
passing: functions return the writes they issue as lists.
-/

namespace DogPatrol

/-! ### Python string primitives used by the code -/

/-- Model of Python `str.replace("Z", "")`: every occurrence of the character
`Z` is removed (for a single character replaced by the empty string, Python
replace is exactly a character filter). -/
def removeZ (s : String) : String := ⟨s.data.filter (fun c => c ≠ 'Z')⟩

/-- Helper for `splitOnChar`: accumulates the current chunk (reversed). -/
def splitOnCharAux (sep : Char) : List Char → List Char → List (List Char)
  | [], acc => [acc.reverse]
  | c :: cs, acc =>
    if c = sep then acc.reverse :: splitOnCharAux sep cs []
    else splitOnCharAux sep cs (c :: acc)

/-- Model of Python `str.split(sep)` for a one-character separator:
`"a,b".split(',') = ["a","b"]`, `"a,".split(',') = ["a",""]`. -/
def splitOnChar (sep : Char) (s : String) : List String :=
  (splitOnCharAux sep s.data []).map (fun cs => ⟨cs⟩)

/-- Digit accumulator for `parseDigits`. -/
def parseDigitsAux : List Char → Nat → Option Nat
  | [], acc => some acc
  | c :: cs, acc =>
    if c.isDigit then parseDigitsAux cs (acc * 10 + (c.toNat - 48)) else none

/-- Parse a non-empty all-digit character list as a natural number. -/
def parseDigits : List Char → Option Nat
  | [] => none
  | c :: cs => parseDigitsAux (c :: cs) 0

/-- Model of Python `str.strip()` (no argument): remove leading and trailing
whitespace. -/
def pyStrip (cs : List Char) : List Char :=
  ((cs.dropWhile Char.isWhitespace).reverse.dropWhile Char.isWhitespace).reverse

/-- Model of Python `int(s)` on decimal strings: optional surrounding
whitespace, optional sign, then at least one digit; anything else raises
`ValueError`, modelled as `none`.  (Python additionally allows underscore
digit grouping, which this program's header values never contain.) -/
def pyInt (s : String) : Option Int :=
  match pyStrip s.data with
  | '-' :: rest => (parseDigits rest).map (fun n => -(n : Int))
  | '+' :: rest => (parseDigits rest).map (fun n => (n : Int))
  | cs => (parseDigits cs).map (fun n => (n : Int))

/-- Value of a two-digit pair of characters. -/
def twoDigitVal (a b : Char) : Nat := (a.toNat - 48) * 10 + (b.toNat - 48)

/-- Checks the `:MM` / `:MM:SS` tail of an ISO time, allowing at most `n`
further `:`-separated two-digit groups, each below 60. -/
def timeTailOk : Nat → List Char → Bool
  | _, [] => true
  | 0, _ => false
  | n + 1, ':' :: a :: b :: rest =>
    a.isDigit && b.isDigit && decide (twoDigitVal a b < 60) && timeTailOk n rest
  | _ + 1, _ => false

/-- Model of the hour field extracted by Python
`datetime.fromisoformat(s).hour`, for the `YYYY-MM-DDTHH[:MM[:SS]]` shaped
strings this program receives (Strava sends `YYYY-MM-DDTHH:MM:SS`, with the
`Z` already removed by the caller).  Returns `none` when the string does not
have that shape or the hour is not below 24 (`fromisoformat` raises
`ValueError` there). -/
def parseISOHour (s : String) : Option Nat :=
  match s.data with
  | y1 :: y2 :: y3 :: y4 :: d1 :: mo1 :: mo2 :: d2 :: dd1 :: dd2 :: sep :: h1 :: h2 :: rest =>
    if y1.isDigit && y2.isDigit && y3.isDigit && y4.isDigit && d1 = '-' &&
       mo1.isDigit && mo2.isDigit && d2 = '-' && dd1.isDigit && dd2.isDigit &&
       (sep = 'T' || sep = ' ') && h1.isDigit && h2.isDigit &&
       decide (twoDigitVal h1 h2 < 24) && timeTailOk 2 rest
    then some (twoDigitVal h1 h2)
    else none
  | _ => none

/-! ### Naming policy (src/main.py determine_activity_name and
src/backfill_activities.py StravaBackfiller.determine_activity_name).
The two copies have identical hour logic but byte-different label literals:
the backfill file stores the labels as proper UTF-8 emoji, while main.py's
literals are the mojibake bytes actually present in that file (UTF-8 read as
Latin-1 and re-encoded); both are reproduced exactly. -/

namespace Backfill

def MORNING_LABEL : String := "Morning Shakeout 🐕‍🦺"
def LUNCH_LABEL : String := "Lunch Break Sniffari 👃🐕‍🦺"
def EVENING_LABEL : String := "Evening Patrol 🐕‍🦺"

/-- `StravaBackfiller.determine_activity_name` (backfill_activities.py
lines 259-275): strip `Z`, parse as naive local datetime, classify the
wall-clock hour.  `none` models the `ValueError` raised on an unparseable
string. -/
def determine_activity_name (start_date_local : String) : Option String :=
  (parseISOHour (removeZ start_date_local)).map (fun hour =>
    if 4 ≤ hour ∧ hour < 11 then MORNING_LABEL
    else if 11 ≤ hour ∧ hour < 14 then LUNCH_LABEL
    else EVENING_LABEL)

end Backfill

namespace Main

def MORNING_LABEL : String := "Morning Shakeout ğŸ•â€ğŸ¦º"
def LUNCH_LABEL : String :=
  "Lunch Break Sniffari ğŸ‘ƒğŸ•â€ğŸ¦º"
def EVENING_LABEL : String := "Evening Patrol ğŸ•â€ğŸ¦º"

/-- `determine_activity_name` (main.py lines 103-124): identical logic to the
backfill copy, with main.py's own label literals. -/
def determine_activity_name (start_date_local : String) : Option String :=
  (parseISOHour (removeZ start_date_local)).map (fun hour =>
    if 4 ≤ hour ∧ hour < 11 then MORNING_LABEL
    else if 11 ≤ hour ∧ hour < 14 then LUNCH_LABEL
    else EVENING_LABEL)

end Main

/-! ### Data model -/

/-- The activity fields this system reads (JSON object from the provider;
`dict.get` yields `Option` for fields without a default, `trainer` defaults
to `False`). -/
structure Activity where
  id : Int
  type : Option String
  trainer : Bool
  name : Option String
  start_date_local : Option String
deriving DecidableEq

/-- Run statistics (`StravaBackfiller.__init__`, backfill_activities.py
lines 67-74), zeroed at construction. -/
structure Stats where
  total_fetched : Nat := 0
  walks_found : Nat := 0
  already_named : Nat := 0
  to_rename : Nat := 0
  renamed : Nat := 0
  errors : Nat := 0
deriving DecidableEq

def initStats : Stats := {}

/-- Pointwise order on statistics counters. -/
def statsLe (s t : Stats) : Prop :=
  s.total_fetched ≤ t.total_fetched ∧ s.walks_found ≤ t.walks_found ∧
  s.already_named ≤ t.already_named ∧ s.to_rename ≤ t.to_rename ∧
  s.renamed ≤ t.renamed ∧ s.errors ≤ t.errors

instance (s t : Stats) : Decidable (statsLe s t) := by unfold statsLe; infer_instance

/-- Python truthiness of an optional string: `None` and `""` are falsy. -/
def pyTruthyOpt : Option String → Bool
  | none => false
  | some s => s ≠ ""

namespace Backfill

/-- One iteration of the `for` loop of
`StravaBackfiller.process_activities` (backfill_activities.py lines
300-347).  `dry_run` is the flag from the constructor; `renameOk id` is the
outcome of the PUT issued by `update_activity_name` for that activity id
(`true` ↦ status 200).  Returns the updated statistics and the rename write
issued (`none` when no PUT was made); the outer `none` models the uncaught
exception raised by `determine_activity_name` when `start_date_local` is
missing or unparseable, which aborts the whole run. -/
def processStep (dry_run : Bool) (renameOk : Int → Bool) (st : Stats)
    (a : Activity) : Option (Stats × Option (Int × String)) :=
  if a.type ≠ some "Walk" then some (st, none)
  else
    let st := { st with walks_found := st.walks_found + 1 }
    if a.trainer then some (st, none)
    else
      match a.start_date_local with
      | none => none
      | some sd =>
        match determine_activity_name sd with
        | none => none
        | some new_name =>
          if a.name.getD "Unnamed" = new_name then
            some ({ st with already_named := st.already_named + 1 }, none)
          else
            let st := { st with to_rename := st.to_rename + 1 }
            if ¬ dry_run then
              if renameOk a.id then
                some ({ st with renamed := st.renamed + 1 }, some (a.id, new_name))
              else
                some ({ st with errors := st.errors + 1 }, some (a.id, new_name))
            else
              some (st, none)

/-- `StravaBackfiller.process_activities` (lines 296-347): fold of
`processStep` over the fetched list, collecting the rename writes issued in
order. -/
def process_activities (dry_run : Bool) (renameOk : Int → Bool) :
    Stats → List Activity → Option (Stats × List (Int × String))
  | st, [] => some (st, [])
  | st, a :: rest =>
    match processStep dry_run renameOk st a with
    | none => none
    | some (st1, w) =>
      match process_activities dry_run renameOk st1 rest with
      | none => none
      | some (st2, ws) => some (st2, w.toList ++ ws)

end Backfill

namespace Main

structure EventData where
  aspect_type : Option String
  object_id : Option Int

/-- Result of one POST event: the HTTP response returned to the provider,
and the rename write issued to Strava (`none` when no PUT was attempted). -/
structure EventOutcome where
  response : String × Nat
  write : Option (Int × String)

/-- `handle_event_processing` (main.py lines 203-277).  Inputs model the
observable environment: `event_data` is the parsed JSON body (`none` for a
missing/empty/unparseable body), `tokenResult` the outcome of
`get_access_token`, `fetchResult` the outcome of `get_activity_details`, and
`updateOk` whether the PUT of `update_activity_name` returned 200 (on any
other status it raises, which is caught and still acknowledged).  An
unparseable `start_date_local` raises `ValueError` inside
`determine_activity_name`; the outer `except` converts it to `("OK", 200)`
before any write. -/
def handle_event_processing (event_data : Option EventData)
    (tokenResult : Except Unit String) (fetchResult : Except Unit Activity)
    (updateOk : Bool) : EventOutcome :=
  match event_data with
  | none => ⟨("OK", 200), none⟩
  | some ev =>
    if ev.aspect_type ≠ some "create" then ⟨("OK", 200), none⟩
    else
      match ev.object_id with
      | none => ⟨("OK", 200), none⟩
      | some object_id =>
        if object_id = 0 then ⟨("OK", 200), none⟩
        else
          match tokenResult with
          | .error _ => ⟨("OK", 200), none⟩
          | .ok _ =>
            match fetchResult with
            | .error _ => ⟨("OK", 200), none⟩
            | .ok activity =>
              if activity.type ≠ some "Walk" then ⟨("OK", 200), none⟩
              else if activity.trainer then ⟨("OK", 200), none⟩
              else
                match activity.start_date_local with
                | none => ⟨("OK", 200), none⟩
                | some sd =>
                  if sd = "" then ⟨("OK", 200), none⟩
                  else
                    match determine_activity_name sd with
                    | none => ⟨("OK", 200), none⟩
                    | some new_name =>
                      let _ := updateOk
                      ⟨("OK", 200), some (object_id, new_name)⟩

end Main

/-! ### Token manager -/

/-- JSON body of the OAuth token endpoint's response (`token_data`);
`dict.get` on absent keys yields `none`. -/
structure TokenResponse where
  access_token : Option String
  refresh_token : Option String

namespace Main

/-- `get_access_token` (main.py lines 47-86).  Inputs: the `refresh_token`
field of the Firestore config document, the two client-credential
environment variables, and the provider's response (status and body).
Returns `Except` for the raised errors, and on success the access token
together with the list of `update_firestore_config` writes performed
(field, value) — the write happens before the function returns.  -/
def get_access_token (refresh_token : Option String)
    (client_id client_secret : Option String) (respStatus : Nat)
    (resp : TokenResponse) :
    Except Unit (Option String × List (String × String)) :=
  if ¬ pyTruthyOpt refresh_token then .error ()
  else if ¬ (pyTruthyOpt client_id ∧ pyTruthyOpt client_secret) then .error ()
  else if respStatus ≠ 200 then .error ()
  else
    let new_access_token := resp.access_token
    let new_refresh_token := resp.refresh_token
    if pyTruthyOpt new_refresh_token ∧ new_refresh_token ≠ refresh_token then
      .ok (new_access_token, [("refresh_token", new_refresh_token.getD "")])
    else
      .ok (new_access_token, [])

end Main

namespace Backfill

/-- `StravaBackfiller.get_access_token` (backfill_activities.py lines
198-220).  The request sends `self.refresh_token` (the `refreshTokenSent`
argument); on a non-200 status the function raises; on success it stores and
returns `token_data.get("access_token")`.  The function performs no config
store write of any kind, so the write list it is paired with is `[]`. -/
def get_access_token (refreshTokenSent : String) (respStatus : Nat)
    (resp : TokenResponse) :
    Except Unit (Option String × List (String × String)) :=
  let _ := refreshTokenSent
  if respStatus ≠ 200 then .error ()
  else .ok (resp.access_token, [])

/-! ### Rate-limited API client -/

/-- Constants (backfill_activities.py lines 50-53). -/
def MAX_RETRIES : Nat := 3
def RATE_LIMIT_BUFFER : Int := 5

/-- Snapshot built by `_parse_rate_limit_headers`; keys of the Python dict
become optional fields (absent key ↦ `none`). -/
structure RateLimitInfo where
  overall_15min_limit : Option Int := none
  overall_daily_limit : Option Int := none
  overall_15min_usage : Option Int := none
  overall_daily_usage : Option Int := none
  read_15min_limit : Option Int := none
  read_daily_limit : Option Int := none
  read_15min_usage : Option Int := none
  read_daily_usage : Option Int := none
deriving DecidableEq

/-- Outcome of parsing one comma-separated header value inside the shared
`try` block: either the header was empty/absent (skipped, no assignment),
both components were assigned, the first `int()` raised before any
assignment, or the first component was assigned and then the second
`int()`/index raised. -/
inductive PairResult where
  | skipped : PairResult
  | ok (fst snd : Int) : PairResult
  | failFirst : PairResult
  | failSecond (fst : Int) : PairResult
deriving DecidableEq

/-- The `if value: parts = value.split(','); int(parts[0]); int(parts[1])`
pattern used for each of the four headers. -/
def parsePair (s : String) : PairResult :=
  if s = "" then .skipped
  else
    let parts := splitOnChar ',' s
    match pyInt (parts.headD "") with
    | none => .failFirst
    | some v0 =>
      match parts.drop 1 with
      | [] => .failSecond v0
      | p1 :: _ =>
        match pyInt p1 with
        | none => .failSecond v0
        | some v1 => .ok v0 v1

/-- A header value that does not raise: `some none` for an absent/empty
header, `some (some (a, b))` for a well-formed pair, `none` when parsing it
raises. -/
def pairOutcome (s : String) : Option (Option (Int × Int)) :=
  match parsePair s with
  | .skipped => some none
  | .ok a b => some (some (a, b))
  | .failFirst => none
  | .failSecond _ => none

/-- Applies one header's parse outcome to the accumulating dict, also
reporting whether an exception escaped this header's statements. -/
def applyPair (r : RateLimitInfo) (s : String)
    (set1 set2 : RateLimitInfo → Int → RateLimitInfo) : RateLimitInfo × Bool :=
  match parsePair s with
  | .skipped => (r, false)
  | .ok v0 v1 => (set2 (set1 r v0) v1, false)
  | .failFirst => (r, true)
  | .failSecond v0 => (set1 r v0, true)

/-- `StravaBackfiller._parse_rate_limit_headers` (lines 76-120).  The four
header values (`headers.get(name, '')`, so an absent header is `""`) are
processed in source order inside one `try` block; the first
`ValueError`/`IndexError` jumps to the `except: pass`, returning whatever
was assigned so far. -/
def parse_rate_limit_headers (limit usage read_limit read_usage : String) :
    RateLimitInfo :=
  let r0 : RateLimitInfo := {}
  let p1 := applyPair r0 limit
    (fun r v => { r with overall_15min_limit := some v })
    (fun r v => { r with overall_daily_limit := some v })
  if p1.2 then p1.1 else
  let p2 := applyPair p1.1 usage
    (fun r v => { r with overall_15min_usage := some v })
    (fun r v => { r with overall_daily_usage := some v })
  if p2.2 then p2.1 else
  let p3 := applyPair p2.1 read_limit
    (fun r v => { r with read_15min_limit := some v })
    (fun r v => { r with read_daily_limit := some v })
  if p3.2 then p3.1 else
  let p4 := applyPair p3.1 read_usage
    (fun r v => { r with read_15min_usage := some v })
    (fun r v => { r with read_daily_usage := some v })
  p4.1

/-- Wall-clock time within the hour, at whole-second resolution (the
`datetime.now()` fields the reset computation reads). -/
structure ClockTime where
  minute : Nat
  second : Nat

/-- `StravaBackfiller._calculate_next_reset_time` (lines 122-151).  Returns
the next reset as (minute-of-hour, rolls-into-next-hour flag) and the whole
number of seconds until it: `next_reset` has `second=0`, so the datetime
subtraction gives `(resetMinute - minute) * 60 - second`, with the
next-hour case using minute 60. -/
def calculate_next_reset_time (now : ClockTime) : (Nat × Bool) × Int :=
  let current_minute := now.minute
  let next_reset_minute : Nat :=
    if current_minute < 15 then 15
    else if current_minute < 30 then 30
    else if current_minute < 45 then 45
    else 0
  if next_reset_minute = 0 then
    ((0, true), (60 - (current_minute : Int)) * 60 - (now.second : Int))
  else
    ((next_reset_minute, false),
      ((next_reset_minute : Int) - (current_minute : Int)) * 60 - (now.second : Int))

/-- The wait computed by `_make_request_with_retry` on a 429 (line 164):
seconds until the next reset plus the fixed buffer. -/
def wait_time (now : ClockTime) : Int :=
  (calculate_next_reset_time now).2 + RATE_LIMIT_BUFFER

/-- Loop of `_make_request_with_retry` (lines 153-196):
`for attempt in range(MAX_RETRIES)`, modelled with the remaining iteration
count.  `responses i` is the status code the provider returns to the i-th
attempt (0-based).  On 429 it sleeps and continues; on anything else it
returns at once; when the loop exhausts, the last response (that of attempt
`MAX_RETRIES - 1`) is returned.  Result: (status returned, attempts made).
-/
def retryGo (responses : Nat → Nat) (attempt : Nat) : Nat → Nat × Nat
  | 0 => (responses (attempt - 1), attempt)
  | remaining + 1 =>
    let status := responses attempt
    if status = 429 then retryGo responses (attempt + 1) remaining
    else (status, attempt + 1)

/-- `StravaBackfiller._make_request_with_retry`, projected onto the status
codes of the attempted requests. -/
def make_request_with_retry (responses : Nat → Nat) : Nat × Nat :=
  retryGo responses 0 MAX_RETRIES

/-! ### Pagination -/

/-- Fixed page size: `fetch_activities(self, after, per_page=100)` is always
called with the default. -/
def PER_PAGE : Nat := 100

/-- The `while True` loop of `StravaBackfiller.fetch_activities` (lines
222-257).  `provider p` is the JSON array returned (with status 200) for
page number `p`.  Returns the list of (page, per_page) requests issued and
the concatenated activities; `none` when the given fuel does not reach an
empty page (the Python loop would still be running). -/
def fetchLoop (provider : Nat → List Activity) (per_page : Nat) (page : Nat) :
    Nat → Option (List (Nat × Nat) × List Activity)
  | 0 => none
  | fuel + 1 =>
    let page_activities := provider page
    if page_activities = [] then some ([(page, per_page)], [])
    else
      match fetchLoop provider per_page (page + 1) fuel with
      | none => none
      | some (reqs, acts) =>
        some ((page, per_page) :: reqs, page_activities ++ acts)

/-- `StravaBackfiller.fetch_activities`: starts at page 1 with the fixed
page size; on completion `stats["total_fetched"]` is set to the length of
the result. -/
def fetch_activities (provider : Nat → List Activity) (fuel : Nat) :
    Option (List (Nat × Nat) × List Activity) :=
  fetchLoop provider PER_PAGE 1 fuel

end Backfill

/-! ## Theorems for the specification claims -/

/-! ### Shared helper lemmas -/

/-- Removing every `Z` from `t ++ "Z"` is the same as removing every `Z`
from `t`. -/
theorem removeZ_append_Z (t : String) : removeZ (t ++ "Z") = removeZ t := by
  cases t with
  | mk cs => simp [removeZ, String.instAppend, String.append]

/-- Classification of the three-way hour split, given pairwise distinct
labels. -/
theorem classify_hour_iff (M L E : String) (hML : M ≠ L) (hME : M ≠ E)
    (hLE : L ≠ E) (h : Nat) :
    ((if 4 ≤ h ∧ h < 11 then M else if 11 ≤ h ∧ h < 14 then L else E) = M ↔
        4 ≤ h ∧ h < 11) ∧
    ((if 4 ≤ h ∧ h < 11 then M else if 11 ≤ h ∧ h < 14 then L else E) = L ↔
        11 ≤ h ∧ h < 14) ∧
    ((if 4 ≤ h ∧ h < 11 then M else if 11 ≤ h ∧ h < 14 then L else E) = E ↔
        ¬(4 ≤ h ∧ h < 11) ∧ ¬(11 ≤ h ∧ h < 14)) := by
  by_cases h1 : 4 ≤ h ∧ h < 11 <;> by_cases h2 : 11 ≤ h ∧ h < 14
  · omega
  · simp [h1, h2, hML, hME]
  · simp [h1, h2, Ne.symm hML, hLE]
  · simp [h1, h2, Ne.symm hME, Ne.symm hLE]

/-- Unfolding of the backfill naming function on a parse success. -/
theorem Backfill.determine_backfill_eq (s : String) (h : Nat)
    (hp : parseISOHour (removeZ s) = some h) :
    Backfill.determine_activity_name s =
      some (if 4 ≤ h ∧ h < 11 then Backfill.MORNING_LABEL
            else if 11 ≤ h ∧ h < 14 then Backfill.LUNCH_LABEL
            else Backfill.EVENING_LABEL) := by
  simp [Backfill.determine_activity_name, hp]

/-- Unfolding of the cloud-function naming function on a parse success. -/
theorem Main.determine_main_eq (s : String) (h : Nat)
    (hp : parseISOHour (removeZ s) = some h) :
    Main.determine_activity_name s =
      some (if 4 ≤ h ∧ h < 11 then Main.MORNING_LABEL
            else if 11 ≤ h ∧ h < 14 then Main.LUNCH_LABEL
            else Main.EVENING_LABEL) := by
  simp [Main.determine_activity_name, hp]

/-! ### C2 — naming policy -/

/-- C2: for every local timestamp string, both copies of the naming
function strip the `Z` marker without timezone conversion and classify the
wall-clock hour `h`: the morning label exactly when `4 ≤ h < 11`, the lunch
label exactly when `11 ≤ h < 14`, and the evening label for every other
hour; the boundary hours 3, 4, 10, 11, 13, 14, 23 and 0 map to evening,
morning, morning, lunch, lunch, evening, evening and evening respectively.
-/
theorem C2_naming_policy (s : String) (h : Nat)
    (hp : parseISOHour (removeZ s) = some h) :
    (Backfill.determine_activity_name s = some Backfill.MORNING_LABEL ↔
        4 ≤ h ∧ h < 11) ∧
    (Backfill.determine_activity_name s = some Backfill.LUNCH_LABEL ↔
        11 ≤ h ∧ h < 14) ∧
    (Backfill.determine_activity_name s = some Backfill.EVENING_LABEL ↔
        ¬(4 ≤ h ∧ h < 11) ∧ ¬(11 ≤ h ∧ h < 14)) ∧
    (Main.determine_activity_name s = some Main.MORNING_LABEL ↔
        4 ≤ h ∧ h < 11) ∧
    (Main.determine_activity_name s = some Main.LUNCH_LABEL ↔
        11 ≤ h ∧ h < 14) ∧
    (Main.determine_activity_name s = some Main.EVENING_LABEL ↔
        ¬(4 ≤ h ∧ h < 11) ∧ ¬(11 ≤ h ∧ h < 14)) ∧
    (∀ t : String,
        Backfill.determine_activity_name (t ++ "Z") =
          Backfill.determine_activity_name t) ∧
    (∀ t : String,
        Main.determine_activity_name (t ++ "Z") =
          Main.determine_activity_name t) ∧
    Backfill.determine_activity_name "2024-12-26T03:00:00Z" =
      some Backfill.EVENING_LABEL ∧
    Backfill.determine_activity_name "2024-12-26T04:00:00Z" =
      some Backfill.MORNING_LABEL ∧
    Backfill.determine_activity_name "2024-12-26T10:59:00Z" =
      some Backfill.MORNING_LABEL ∧
    Backfill.determine_activity_name "2024-12-26T11:00:00Z" =
      some Backfill.LUNCH_LABEL ∧
    Backfill.determine_activity_name "2024-12-26T13:59:00Z" =
      some Backfill.LUNCH_LABEL ∧
    Backfill.determine_activity_name "2024-12-26T14:00:00Z" =
      some Backfill.EVENING_LABEL ∧
    Backfill.determine_activity_name "2024-12-26T23:00:00Z" =
      some Backfill.EVENING_LABEL ∧
    Backfill.determine_activity_name "2024-12-26T00:30:00Z" =
      some Backfill.EVENING_LABEL ∧
    Main.determine_activity_name "2024-12-26T03:00:00Z" =
      some Main.EVENING_LABEL ∧
    Main.determine_activity_name "2024-12-26T04:00:00Z" =
      some Main.MORNING_LABEL ∧
    Main.determine_activity_name "2024-12-26T10:59:00Z" =
      some Main.MORNING_LABEL ∧
    Main.determine_activity_name "2024-12-26T11:00:00Z" =
      some Main.LUNCH_LABEL ∧
    Main.determine_activity_name "2024-12-26T13:59:00Z" =
      some Main.LUNCH_LABEL ∧
    Main.determine_activity_name "2024-12-26T14:00:00Z" =
      some Main.EVENING_LABEL ∧
    Main.determine_activity_name "2024-12-26T23:00:00Z" =
      some Main.EVENING_LABEL ∧
    Main.determine_activity_name "2024-12-26T00:30:00Z" =
      some Main.EVENING_LABEL := by
  obtain ⟨b1, b2, b3⟩ :=
    classify_hour_iff Backfill.MORNING_LABEL Backfill.LUNCH_LABEL
      Backfill.EVENING_LABEL (by decide) (by decide) (by decide) h
  obtain ⟨m1, m2, m3⟩ :=
    classify_hour_iff Main.MORNING_LABEL Main.LUNCH_LABEL
      Main.EVENING_LABEL (by decide) (by decide) (by decide) h
  refine ⟨?_, ?_, ?_, ?_, ?_, ?_, ?_, ?_, ?_, ?_, ?_, ?_, ?_, ?_, ?_, ?_,
    ?_, ?_, ?_, ?_, ?_, ?_, ?_, ?_⟩
  · rw [Backfill.determine_backfill_eq s h hp, Option.some_inj]; exact b1
  · rw [Backfill.determine_backfill_eq s h hp, Option.some_inj]; exact b2
  · rw [Backfill.determine_backfill_eq s h hp, Option.some_inj]; exact b3
  · rw [Main.determine_main_eq s h hp, Option.some_inj]; exact m1
  · rw [Main.determine_main_eq s h hp, Option.some_inj]; exact m2
  · rw [Main.determine_main_eq s h hp, Option.some_inj]; exact m3
  · intro t
    simp [Backfill.determine_activity_name, removeZ_append_Z]
  · intro t
    simp [Main.determine_activity_name, removeZ_append_Z]
  all_goals decide

/-- Witness for C2 at the timestamp `2024-12-26T07:30:00Z` (hour 7). -/
theorem C2_naming_policy_witness :
    parseISOHour (removeZ "2024-12-26T07:30:00Z") = some 7 ∧
    (Backfill.determine_activity_name "2024-12-26T07:30:00Z" =
        some Backfill.MORNING_LABEL ↔ 4 ≤ 7 ∧ 7 < 11) :=
  ⟨by decide, (C2_naming_policy "2024-12-26T07:30:00Z" 7 (by decide)).1⟩

/-! ### C4 — retry budget -/

/-- One unrolling step of the retry loop. -/
theorem Backfill.retryGo_succ (r : Nat → Nat) (a n : Nat) :
    Backfill.retryGo r a (n + 1) =
      if r a = 429 then Backfill.retryGo r (a + 1) n else (r a, a + 1) := rfl

/-- Full unrolling of the retry loop at the fixed budget of 3. -/
theorem Backfill.make_request_unfold (r : Nat → Nat) :
    Backfill.make_request_with_retry r =
      if r 0 = 429 then
        (if r 1 = 429 then (r 2, 3) else (r 1, 2))
      else (r 0, 1) := by
  have : Backfill.make_request_with_retry r =
      if r 0 = 429 then
        (if r 1 = 429 then (if r 2 = 429 then (r 2, 3) else (r 2, 3))
         else (r 1, 2))
      else (r 0, 1) := rfl
  rw [this, ite_self]

/-- C4: for every request, the rate-limited client issues at most 3 HTTP
attempts; a 429 triggers a retry only while the budget of 3 is not
exhausted, any non-429 response is returned immediately with no further
attempt, and after 3 consecutive 429 responses the last raw 429 response is
returned rather than raising. -/
theorem C4_retry_budget (responses : Nat → Nat) :
    (Backfill.make_request_with_retry responses).2 ≤ 3 ∧
    (∀ i : Nat, i < 3 → (∀ j, j < i → responses j = 429) →
      responses i ≠ 429 →
      Backfill.make_request_with_retry responses = (responses i, i + 1)) ∧
    ((∀ j, j < 3 → responses j = 429) →
      Backfill.make_request_with_retry responses = (responses 2, 3) ∧
        responses 2 = 429) := by
  rw [Backfill.make_request_unfold]
  refine ⟨?_, ?_, ?_⟩
  · by_cases r0 : responses 0 = 429 <;> by_cases r1 : responses 1 = 429 <;>
      simp [r0, r1]
  · intro i hi hprev hne
    interval_cases i
    · simp [hne]
    · have h0 := hprev 0 (by omega)
      simp [h0, hne]
    · have h0 := hprev 0 (by omega)
      have h1 := hprev 1 (by omega)
      simp [h0, h1]
  · intro hall
    have h0 := hall 0 (by omega)
    have h1 := hall 1 (by omega)
    have h2 := hall 2 (by omega)
    simp [h0, h1, h2]

/-- Witness for C4 on a provider that always answers 429. -/
theorem C4_retry_budget_witness :
    Backfill.make_request_with_retry (fun _ => 429) = (429, 3) :=
  ((C4_retry_budget (fun _ => 429)).2.2 (fun _ _ => rfl)).1

/-! ### C5 — 429 backoff targets the next quarter-hour boundary -/

/-- Case characterization of `_calculate_next_reset_time`. -/
theorem Backfill.calculate_next_reset_time_cases (now : Backfill.ClockTime) :
    Backfill.calculate_next_reset_time now =
      if now.minute < 15 then
        ((15, false), (15 - (now.minute : Int)) * 60 - (now.second : Int))
      else if now.minute < 30 then
        ((30, false), (30 - (now.minute : Int)) * 60 - (now.second : Int))
      else if now.minute < 45 then
        ((45, false), (45 - (now.minute : Int)) * 60 - (now.second : Int))
      else
        ((0, true), (60 - (now.minute : Int)) * 60 - (now.second : Int)) := by
  by_cases c1 : now.minute < 15 <;> by_cases c2 : now.minute < 30 <;>
    by_cases c3 : now.minute < 45 <;>
      simp [Backfill.calculate_next_reset_time, c1, c2, c3]

/-- C5: on a 429 the computed wait targets the next quarter-hour boundary
strictly after the current minute, plus the fixed 5-second buffer: minute
`m < 15` targets minute 15 of the same hour, `15 ≤ m < 30` minute 30,
`30 ≤ m < 45` minute 45, and `m ≥ 45` the top of the next hour; at minute 7
the wait is the time to minute 15 plus 5 seconds, at minute 46 the time to
the next hour plus 5 seconds. -/
theorem C5_backoff_quarter_hour (now : Backfill.ClockTime) (hm : now.minute < 60)
    (_hs : now.second < 60) :
    (now.minute < 15 →
      Backfill.calculate_next_reset_time now =
        ((15, false), (15 - (now.minute : Int)) * 60 - (now.second : Int))) ∧
    (15 ≤ now.minute → now.minute < 30 →
      Backfill.calculate_next_reset_time now =
        ((30, false), (30 - (now.minute : Int)) * 60 - (now.second : Int))) ∧
    (30 ≤ now.minute → now.minute < 45 →
      Backfill.calculate_next_reset_time now =
        ((45, false), (45 - (now.minute : Int)) * 60 - (now.second : Int))) ∧
    (45 ≤ now.minute →
      Backfill.calculate_next_reset_time now =
        ((0, true), (60 - (now.minute : Int)) * 60 - (now.second : Int))) ∧
    Backfill.wait_time now = (Backfill.calculate_next_reset_time now).2 + 5 ∧
    (now.minute = 7 →
      Backfill.wait_time now = (8 * 60 - (now.second : Int)) + 5) ∧
    (now.minute = 46 →
      Backfill.wait_time now = (14 * 60 - (now.second : Int)) + 5) := by
  have hc := Backfill.calculate_next_reset_time_cases now
  refine ⟨?_, ?_, ?_, ?_, rfl, ?_, ?_⟩
  · intro h1
    rw [hc, if_pos h1]
  · intro h1 h2
    rw [hc, if_neg (by omega), if_pos h2]
  · intro h1 h2
    rw [hc, if_neg (by omega), if_neg (by omega), if_pos h2]
  · intro h1
    rw [hc, if_neg (by omega), if_neg (by omega), if_neg (by omega)]
  · intro h1
    show (Backfill.calculate_next_reset_time now).2 +
      Backfill.RATE_LIMIT_BUFFER = _
    rw [hc, if_pos (by omega)]
    simp only [h1, Backfill.RATE_LIMIT_BUFFER]
    omega
  · intro h1
    show (Backfill.calculate_next_reset_time now).2 +
      Backfill.RATE_LIMIT_BUFFER = _
    rw [hc, if_neg (by omega), if_neg (by omega), if_neg (by omega)]
    simp only [h1, Backfill.RATE_LIMIT_BUFFER]
    omega

/-- Witness for C5 at minute 7, second 30 and minute 46, second 12. -/
theorem C5_backoff_quarter_hour_witness :
    Backfill.wait_time ⟨7, 30⟩ = (8 * 60 - (30 : Int)) + 5 ∧
    Backfill.wait_time ⟨46, 12⟩ = (14 * 60 - (12 : Int)) + 5 :=
  ⟨(C5_backoff_quarter_hour ⟨7, 30⟩ (by decide) (by decide)).2.2.2.2.2.1 rfl,
   (C5_backoff_quarter_hour ⟨46, 12⟩ (by decide) (by decide)).2.2.2.2.2.2 rfl⟩

/-! ### C8 — the event driver always acknowledges with 200 -/

/-- C8: for every inbound POST event, `handle_event_processing` returns the
generic success acknowledgment `("OK", 200)` regardless of any error at any
stage — missing body, non-create aspect type, missing object id,
token-refresh failure, fetch failure, ineligible activity, missing or
unparseable timestamp, or rename failure.  (The `strava_webhook` wrapper's
own `except` clause likewise returns `("OK", 200)` for any escaping
exception.) -/
theorem C8_event_driver_always_200 (event_data : Option Main.EventData)
    (tokenResult : Except Unit String) (fetchResult : Except Unit Activity)
    (updateOk : Bool) :
    (Main.handle_event_processing event_data tokenResult fetchResult
        updateOk).response = ("OK", 200) := by
  unfold Main.handle_event_processing
  repeat' (first | rfl | split)

/-! ### C9 — rate-limit header parsing (corrected) -/

/-- C9 counterexample: the four header parses share one `try` block, so a
malformed `X-RateLimit-Limit` (here `"oops"`) aborts parsing of the later
headers and the snapshot omits the read-only pair even though its header
(`"100,1000"`) is well-formed — refuting per-field tolerance as claimed. -/
theorem C9_counterexample :
    Backfill.parsePair "100,1000" = .ok 100 1000 ∧
    (Backfill.parse_rate_limit_headers "oops" "" "100,1000" ""
      ).read_15min_limit = none ∧
    (Backfill.parse_rate_limit_headers "oops" "" "100,1000" ""
      ).read_daily_limit = none := by decide

/-- Effect of one header's processing when it does not raise. -/
theorem Backfill.applyPair_of_outcome (r : Backfill.RateLimitInfo)
    (s : String) (o : Option (Int × Int))
    (set1 set2 : Backfill.RateLimitInfo → Int → Backfill.RateLimitInfo)
    (h : Backfill.pairOutcome s = some o) :
    Backfill.applyPair r s set1 set2 =
      ((match o with
        | none => r
        | some (a, b) => set2 (set1 r a) b), false) := by
  cases hp : Backfill.parsePair s with
  | skipped =>
    simp [Backfill.pairOutcome, hp] at h
    subst h
    simp [Backfill.applyPair, hp]
  | ok a b =>
    simp [Backfill.pairOutcome, hp] at h
    subst h
    simp [Backfill.applyPair, hp]
  | failFirst => simp [Backfill.pairOutcome, hp] at h
  | failSecond v => simp [Backfill.pairOutcome, hp] at h

/-- C9 amended: parsing is total (a malformed or missing value never aborts
the request call), a missing header is skipped without affecting the
others, and the headers are processed in the fixed order overall-limit,
overall-usage, read-limit, read-usage: when no header is malformed the
snapshot contains exactly the well-formed pairs, but the first malformed
value stops parsing there — earlier fields are kept (including a half-set
pair when the second component is the malformed one) and all later headers
are omitted even if well-formed. -/
theorem C9_header_parsing_amended (limit usage read_limit read_usage : String) :
    (∀ ol ou rl ru,
      Backfill.pairOutcome limit = some ol →
      Backfill.pairOutcome usage = some ou →
      Backfill.pairOutcome read_limit = some rl →
      Backfill.pairOutcome read_usage = some ru →
      Backfill.parse_rate_limit_headers limit usage read_limit read_usage =
        { overall_15min_limit := ol.map Prod.fst
          overall_daily_limit := ol.map Prod.snd
          overall_15min_usage := ou.map Prod.fst
          overall_daily_usage := ou.map Prod.snd
          read_15min_limit := rl.map Prod.fst
          read_daily_limit := rl.map Prod.snd
          read_15min_usage := ru.map Prod.fst
          read_daily_usage := ru.map Prod.snd }) ∧
    (Backfill.parsePair limit = .failFirst →
      Backfill.parse_rate_limit_headers limit usage read_limit read_usage =
        ({} : Backfill.RateLimitInfo)) ∧
    (∀ v, Backfill.parsePair limit = .failSecond v →
      Backfill.parse_rate_limit_headers limit usage read_limit read_usage =
        { overall_15min_limit := some v }) := by
  refine ⟨?_, ?_, ?_⟩
  · intro ol ou rl ru h1 h2 h3 h4
    simp only [Backfill.parse_rate_limit_headers,
      Backfill.applyPair_of_outcome _ _ _ _ _ h1,
      Backfill.applyPair_of_outcome _ _ _ _ _ h2,
      Backfill.applyPair_of_outcome _ _ _ _ _ h3,
      Backfill.applyPair_of_outcome _ _ _ _ _ h4]
    rcases ol with _ | ⟨a1, b1⟩ <;> rcases ou with _ | ⟨a2, b2⟩ <;>
      rcases rl with _ | ⟨a3, b3⟩ <;> rcases ru with _ | ⟨a4, b4⟩ <;> rfl
  · intro hf
    simp [Backfill.parse_rate_limit_headers, Backfill.applyPair, hf]
  · intro v hf
    simp [Backfill.parse_rate_limit_headers, Backfill.applyPair, hf]

/-- Witness for the amended C9 on the four documented header examples. -/
theorem C9_header_parsing_amended_witness :
    Backfill.parse_rate_limit_headers "200,2000" "105,408" "100,1000" "100,342" =
      { overall_15min_limit := some 200
        overall_daily_limit := some 2000
        overall_15min_usage := some 105
        overall_daily_usage := some 408
        read_15min_limit := some 100
        read_daily_limit := some 1000
        read_15min_usage := some 100
        read_daily_usage := some 342 } := by
  have h := (C9_header_parsing_amended "200,2000" "105,408" "100,1000"
    "100,342").1 (some (200, 2000)) (some (105, 408)) (some (100, 1000))
    (some (100, 342)) (by decide) (by decide) (by decide) (by decide)
  simpa using h

/-! ### C7 — pagination -/

/-- Termination and shape of the pagination loop: when the pages from
`start` are non-empty for `n` steps and page `start + n` is empty, the loop
requests pages `start, …, start + n` (each with the given page size) and
returns the concatenation of the non-empty pages in provider order. -/
theorem Backfill.fetchLoop_spec (provider : Nat → List Activity)
    (per_page : Nat) :
    ∀ n start fuel, (∀ i, i < n → provider (start + i) ≠ []) →
      provider (start + n) = [] → n < fuel →
      Backfill.fetchLoop provider per_page start fuel =
        some ((List.range' start (n + 1)).map (fun p => (p, per_page)),
          ((List.range' start n).map provider).flatten) := by
  intro n
  induction n with
  | zero =>
    intro start fuel h1 h2 hf
    obtain ⟨f, rfl⟩ : ∃ f, fuel = f + 1 := ⟨fuel - 1, by omega⟩
    have h0 : provider start = [] := by simpa using h2
    simp [Backfill.fetchLoop, h0, List.range'_succ]
  | succ n ih =>
    intro start fuel h1 h2 hf
    obtain ⟨f, rfl⟩ : ∃ f, fuel = f + 1 := ⟨fuel - 1, by omega⟩
    have h0 : provider start ≠ [] := by simpa using h1 0 (by omega)
    have hrec := ih (start + 1) f
      (fun i hi => by
        have hx := h1 (i + 1) (by omega)
        have he : start + (i + 1) = start + 1 + i := by omega
        rwa [he] at hx)
      (by
        have he : start + (n + 1) = start + 1 + n := by omega
        rwa [he] at h2)
      (by omega)
    simp [Backfill.fetchLoop, h0, hrec, List.range'_succ]

/-- C7: the activity-list fetch requests pages of fixed size 100 with an
incrementing page number starting at 1, terminates exactly when a page
returns an empty collection, and returns the concatenation of all non-empty
pages in provider order, so the total fetched count equals the sum of the
sizes of the pages returned before the empty one. -/
theorem C7_pagination (provider : Nat → List Activity) (n fuel : Nat)
    (hne : ∀ i, i < n → provider (1 + i) ≠ []) (he : provider (1 + n) = [])
    (hf : n < fuel) :
    Backfill.fetch_activities provider fuel =
      some ((List.range' 1 (n + 1)).map (fun p => (p, 100)),
        ((List.range' 1 n).map provider).flatten) ∧
    (((List.range' 1 n).map provider).flatten).length =
      (((List.range' 1 n).map provider).map List.length).sum := by
  constructor
  · exact Backfill.fetchLoop_spec provider Backfill.PER_PAGE n 1 fuel hne he hf
  · simp [List.length_flatten]

/-- Witness for C7: two non-empty pages then an empty one. -/
theorem C7_pagination_witness :
    Backfill.fetch_activities
      (fun p => if p < 3 then
        [⟨1, some "Walk", false, some "x", some "2024-12-26T07:30:00"⟩]
       else []) 5 =
      some ([(1, 100), (2, 100), (3, 100)],
        [⟨1, some "Walk", false, some "x", some "2024-12-26T07:30:00"⟩,
         ⟨1, some "Walk", false, some "x", some "2024-12-26T07:30:00"⟩]) := by
  have h := (C7_pagination
    (fun p => if p < 3 then
      [⟨1, some "Walk", false, some "x", some "2024-12-26T07:30:00"⟩]
     else []) 2 5 (by decide) (by decide) (by decide)).1
  simpa [List.range'] using h

/-! ### C3 — refresh-token rotation (corrected) -/

/-- C3 counterexample: the backfill script's token refresher performs a
successful refresh (status 200) whose response carries a refresh token
(`"new"`) different from the one it sent (`"old"`), yet it issues no write
to the persisted config store — refuting the claim for that code path. -/
theorem C3_counterexample :
    Backfill.get_access_token "old" 200 ⟨some "atk", some "new"⟩ =
      .ok (some "atk", []) ∧ ("new" : String) ≠ "old" := ⟨rfl, by decide⟩

/-- C3 amended: in the cloud function (src/main.py), after every successful
token refresh, a truthy returned refresh token different from the stored
one is written back to the persisted config store under its field name as
part of the refresh, and otherwise the store is left unchanged; the
backfill script's `get_access_token`, by contrast, never writes any rotated
refresh token back to the store. -/
theorem C3_token_rotation_amended (rt cid cs : Option String)
    (resp : TokenResponse) (h1 : pyTruthyOpt rt = true)
    (h2 : pyTruthyOpt cid = true) (h3 : pyTruthyOpt cs = true) :
    (pyTruthyOpt resp.refresh_token = true ∧ resp.refresh_token ≠ rt →
      Main.get_access_token rt cid cs 200 resp =
        .ok (resp.access_token,
          [("refresh_token", resp.refresh_token.getD "")])) ∧
    (¬(pyTruthyOpt resp.refresh_token = true ∧ resp.refresh_token ≠ rt) →
      Main.get_access_token rt cid cs 200 resp =
        .ok (resp.access_token, [])) ∧
    (∀ (sent : String) (r2 : TokenResponse),
      Backfill.get_access_token sent 200 r2 = .ok (r2.access_token, [])) := by
  refine ⟨?_, ?_, ?_⟩
  · intro hc
    simp [Main.get_access_token, h1, h2, h3, hc]
  · intro hc
    simp [Main.get_access_token, h1, h2, h3, hc]
  · intro sent r2
    simp [Backfill.get_access_token]

/-- Witness for the amended C3: a rotated token is persisted by the cloud
function. -/
theorem C3_token_rotation_amended_witness :
    Main.get_access_token (some "old") (some "id") (some "sec") 200
      ⟨some "atk", some "new"⟩ =
      .ok (some "atk", [("refresh_token", "new")]) := by
  have h := (C3_token_rotation_amended (some "old") (some "id") (some "sec")
    ⟨some "atk", some "new"⟩ (by decide) (by decide) (by decide)).1
    (by decide)
  simpa using h

/-! ### C1 — already-correct idempotence (corrected) -/

/-- C1 counterexample: in the single-activity event path, the freshly
computed theme name equals the activity's current display name, yet the
driver still issues the rename write — there is no equality check in
`handle_event_processing`, refuting the claim for that path. -/
theorem C1_counterexample :
    Main.determine_activity_name "2024-12-26T07:30:00Z" =
      some Main.MORNING_LABEL ∧
    (Main.handle_event_processing (some ⟨some "create", some 7⟩)
        (.ok "tok")
        (.ok ⟨7, some "Walk", false, some Main.MORNING_LABEL,
          some "2024-12-26T07:30:00Z"⟩)
        true).write = some (7, Main.MORNING_LABEL) :=
  ⟨rfl, rfl⟩

/-- C1 amended: in the batch path, every eligible activity whose freshly
computed theme name equals its current display name is classified as
already correct (the `already_named` counter) and no rename write is
issued; in particular processing the same activity a second time after a
successful rename (so its name is the computed name) issues no write.  The
single-activity event path, by contrast, issues the rename write
unconditionally, even when the computed name equals the current name. -/
theorem C1_already_correct_batch (dry_run : Bool) (renameOk : Int → Bool)
    (st : Stats) (a : Activity) (s nm : String)
    (hw : a.type = some "Walk") (ht : a.trainer = false)
    (hsd : a.start_date_local = some s)
    (hn : Backfill.determine_activity_name s = some nm) :
    (a.name = some nm →
      Backfill.processStep dry_run renameOk st a =
        some ({ st with walks_found := st.walks_found + 1,
                        already_named := st.already_named + 1 }, none)) ∧
    (∀ st2 : Stats,
      Backfill.processStep dry_run renameOk st2 { a with name := some nm } =
        some ({ st2 with walks_found := st2.walks_found + 1,
                         already_named := st2.already_named + 1 }, none)) := by
  constructor
  · intro hname
    simp [Backfill.processStep, hw, ht, hsd, hn, hname]
  · intro st2
    simp [Backfill.processStep, hw, ht, hsd, hn]

/-- Witness for the amended C1: an outdoor evening walk already carrying
the evening label is counted as already named and produces no write. -/
theorem C1_already_correct_batch_witness :
    Backfill.processStep false (fun _ => true) initStats
      ⟨5, some "Walk", false, some Backfill.EVENING_LABEL,
        some "2024-12-26T18:00:00Z"⟩ =
      some ({ initStats with walks_found := 1, already_named := 1 }, none) :=
  (C1_already_correct_batch false (fun _ => true) initStats
    ⟨5, some "Walk", false, some Backfill.EVENING_LABEL,
      some "2024-12-26T18:00:00Z"⟩
    "2024-12-26T18:00:00Z" Backfill.EVENING_LABEL rfl rfl rfl
    (by decide)).1 rfl

/-! ### C6 — eligibility filter order -/

/-- C6: the eligibility filter is applied in fixed order with
short-circuit: an activity whose category is not exactly `"Walk"` is
skipped with no counter change and no write, regardless of its timestamp
(in both the batch step and the event path), and a `"Walk"` with the
indoor flag set is counted only in `walks_found` and produces no write. -/
theorem C6_eligibility_order (dry_run : Bool) (renameOk : Int → Bool)
    (st : Stats) (a : Activity) :
    (a.type ≠ some "Walk" →
      Backfill.processStep dry_run renameOk st a = some (st, none)) ∧
    (a.type = some "Walk" → a.trainer = true →
      Backfill.processStep dry_run renameOk st a =
        some ({ st with walks_found := st.walks_found + 1 }, none)) ∧
    (∀ (ed : Option Main.EventData) (tk : Except Unit String) (u : Bool),
      a.type ≠ some "Walk" →
      (Main.handle_event_processing ed tk (.ok a) u).write = none) := by
  refine ⟨?_, ?_, ?_⟩
  · intro h
    simp [Backfill.processStep, h]
  · intro h1 h2
    simp [Backfill.processStep, h1, h2]
  · intro ed tk u h
    cases ed with
    | none => rfl
    | some ev =>
      simp only [Main.handle_event_processing]
      repeat' split
      all_goals rfl

/-- Witness for C6: a `"Run"` and an indoor `"Walk"`. -/
theorem C6_eligibility_order_witness :
    Backfill.processStep false (fun _ => true) initStats
      ⟨9, some "Run", false, some "x", some "2024-12-26T18:00:00Z"⟩ =
      some (initStats, none) ∧
    Backfill.processStep false (fun _ => true) initStats
      ⟨9, some "Walk", true, some "x", some "2024-12-26T18:00:00Z"⟩ =
      some ({ initStats with walks_found := 1 }, none) :=
  ⟨(C6_eligibility_order false (fun _ => true) initStats
      ⟨9, some "Run", false, some "x", some "2024-12-26T18:00:00Z"⟩).1
      (by decide),
   (C6_eligibility_order false (fun _ => true) initStats
      ⟨9, some "Walk", true, some "x", some "2024-12-26T18:00:00Z"⟩).2.1
      rfl rfl⟩

/-! ### C10 — batch statistics invariants -/

/-- Per-item evolution of the statistics counters: one processed activity
moves every counter up by at most what its branch allows, keeps
`total_fetched`, and in dry-run mode issues no write and touches neither
`renamed` nor `errors`. -/
theorem Backfill.processStep_bounds (d : Bool) (r : Int → Bool) (st : Stats)
    (a : Activity) (st1 : Stats) (w : Option (Int × String))
    (h : Backfill.processStep d r st a = some (st1, w)) :
    statsLe st st1 ∧
    st1.walks_found ≤ st.walks_found + 1 ∧
    st1.already_named + st1.to_rename + st.walks_found ≤
      st.already_named + st.to_rename + st1.walks_found ∧
    st1.renamed + st1.errors + st.to_rename ≤
      st.renamed + st.errors + st1.to_rename ∧
    (d = true → w = none ∧ st1.renamed = st.renamed ∧
      st1.errors = st.errors) := by
  unfold Backfill.processStep at h
  repeat' split at h
  all_goals simp at h
  all_goals obtain ⟨h1, h2⟩ := h
  all_goals subst h1
  all_goals subst h2
  all_goals refine ⟨?_, ?_, ?_, ?_, ?_⟩
  all_goals try (intro hd)
  all_goals simp_all [statsLe]
  all_goals omega

/-- Run-level accumulation of the per-item bounds, by induction over the
activity list. -/
theorem Backfill.process_activities_bounds (d : Bool) (r : Int → Bool) :
    ∀ (as : List Activity) (st st' : Stats) (ws : List (Int × String)),
      Backfill.process_activities d r st as = some (st', ws) →
      statsLe st st' ∧
      st'.walks_found ≤ st.walks_found + as.length ∧
      st'.already_named + st'.to_rename + st.walks_found ≤
        st.already_named + st.to_rename + st'.walks_found ∧
      st'.renamed + st'.errors + st.to_rename ≤
        st.renamed + st.errors + st'.to_rename ∧
      (d = true → ws = [] ∧ st'.renamed = st.renamed ∧
        st'.errors = st.errors) := by
  intro as
  induction as with
  | nil =>
    intro st st' ws h
    simp [Backfill.process_activities] at h
    obtain ⟨rfl, rfl⟩ := h
    simp [statsLe]
  | cons a rest ih =>
    intro st st' ws h
    simp only [Backfill.process_activities] at h
    cases hstep : Backfill.processStep d r st a with
    | none => rw [hstep] at h; simp at h
    | some p =>
      obtain ⟨st1, w⟩ := p
      rw [hstep] at h
      dsimp only at h
      cases hrest : Backfill.process_activities d r st1 rest with
      | none => rw [hrest] at h; simp at h
      | some q =>
        obtain ⟨st2, ws2⟩ := q
        rw [hrest] at h
        simp only [Option.some.injEq, Prod.mk.injEq] at h
        obtain ⟨rfl, rfl⟩ := h
        obtain ⟨sb1, sb2, sb3, sb4, sb5⟩ :=
          Backfill.processStep_bounds d r st a st1 w hstep
        obtain ⟨ib1, ib2, ib3, ib4, ib5⟩ := ih st1 st2 ws2 hrest
        refine ⟨?_, ?_, ?_, ?_, ?_⟩
        · simp only [statsLe] at sb1 ib1 ⊢
          omega
        · simpa [Nat.add_comm, Nat.add_assoc, Nat.add_left_comm] using
            Nat.le_trans ib2 (by omega)
        · simp only [statsLe] at sb1 ib1
          omega
        · simp only [statsLe] at sb1 ib1
          omega
        · intro hd
          obtain ⟨hw, hr1, he1⟩ := sb5 hd
          obtain ⟨hws2, hr2, he2⟩ := ib5 hd
          subst hw
          simp [hws2, hr1, hr2, he1, he2]

/-- Processing a concatenation is processing the first part, then the rest
from the reached statistics, concatenating the issued writes. -/
theorem Backfill.process_activities_append (d : Bool) (r : Int → Bool) :
    ∀ (xs ys : List Activity) (st : Stats),
      Backfill.process_activities d r st (xs ++ ys) =
        match Backfill.process_activities d r st xs with
        | none => none
        | some (st1, ws1) =>
          match Backfill.process_activities d r st1 ys with
          | none => none
          | some (st2, ws2) => some (st2, ws1 ++ ws2) := by
  intro xs
  induction xs with
  | nil =>
    intro ys st
    simp only [List.nil_append, Backfill.process_activities]
    cases Backfill.process_activities d r st ys with
    | none => rfl
    | some q => obtain ⟨st2, ws2⟩ := q; rfl
  | cons a rest ih =>
    intro ys st
    simp only [List.cons_append, Backfill.process_activities]
    cases hstep : Backfill.processStep d r st a with
    | none => rfl
    | some p =>
      obtain ⟨st1, w⟩ := p
      dsimp only
      have hre : rest.append ys = rest ++ ys := rfl
      rw [hre, ih ys st1]
      cases Backfill.process_activities d r st1 rest with
      | none => rfl
      | some q =>
        obtain ⟨st2, ws2⟩ := q
        dsimp only
        cases Backfill.process_activities d r st2 ys with
        | none => rfl
        | some q2 =>
          obtain ⟨st3, ws3⟩ := q2
          simp

/-- C10: after processing any list of activities from zeroed counters,
`already_named + to_rename ≤ walks_found`, `walks_found` is at most the
number of activities processed, `renamed + errors ≤ to_rename`, every
counter is non-decreasing during the run (the statistics after any prefix
are pointwise at most the final statistics; non-negativity is inherent in
the `Nat` counters), and in dry-run mode `renamed` and `errors` stay zero
and no write is issued. -/
theorem C10_batch_statistics (d : Bool) (r : Int → Bool)
    (as : List Activity) (st' : Stats) (ws : List (Int × String))
    (h : Backfill.process_activities d r initStats as = some (st', ws)) :
    st'.already_named + st'.to_rename ≤ st'.walks_found ∧
    st'.walks_found ≤ as.length ∧
    st'.renamed + st'.errors ≤ st'.to_rename ∧
    (∀ (xs ys : List Activity) (stm : Stats) (wsm : List (Int × String)),
      as = xs ++ ys →
      Backfill.process_activities d r initStats xs = some (stm, wsm) →
      statsLe stm st') ∧
    (d = true → st'.renamed = 0 ∧ st'.errors = 0 ∧ ws = []) := by
  obtain ⟨h1, h2, h3, h4, h5⟩ :=
    Backfill.process_activities_bounds d r as initStats st' ws h
  refine ⟨?_, ?_, ?_, ?_, ?_⟩
  · simpa [initStats] using h3
  · simpa [initStats] using h2
  · simpa [initStats] using h4
  · intro xs ys stm wsm heq hxs
    subst heq
    rw [Backfill.process_activities_append d r xs ys initStats, hxs] at h
    dsimp only at h
    cases hys : Backfill.process_activities d r stm ys with
    | none => rw [hys] at h; simp at h
    | some q =>
      obtain ⟨st2, ws2⟩ := q
      rw [hys] at h
      simp only [Option.some.injEq, Prod.mk.injEq] at h
      obtain ⟨h9, -⟩ := h
      exact h9 ▸
        (Backfill.process_activities_bounds d r ys stm st2 ws2 hys).1
  · intro hd
    obtain ⟨hws, hr, he⟩ := h5 hd
    exact ⟨by simpa [initStats] using hr, by simpa [initStats] using he, hws⟩

/-- Witness for C10: a one-element live run that renames its walk. -/
theorem C10_batch_statistics_witness :
    ({ walks_found := 1, to_rename := 1, renamed := 1 } : Stats).already_named +
      ({ walks_found := 1, to_rename := 1, renamed := 1 } : Stats).to_rename ≤
      ({ walks_found := 1, to_rename := 1, renamed := 1 } : Stats).walks_found :=
  (C10_batch_statistics false (fun _ => true)
    [⟨1, some "Walk", false, some "Old", some "2024-12-26T07:30:00Z"⟩]
    { walks_found := 1, to_rename := 1, renamed := 1 }
    [(1, Backfill.MORNING_LABEL)] (by decide)).1

end DogPatrol
